import Mathlib

/-!
Shallow embedding of the RAG chatbot's conversation cache and retrieval gate.

Sources embedded here:
- src/chat/chat_manager.py   (ChatManager)
- src/chat/gui.py            (GUI turn orchestration)
- src/chat/langchain_manager.py (generate_title post-processing)
- src/infrastructure/rag_manager.py (RAGManager)
- src/config/settings.py     (constants)

The Streamlit session-state dictionary always aliases the ChatManager's own
fields after construction (every mutation reassigns the same objects), so the
per-operation models carry a single `CMState`; the constructor, where the two
genuinely differ, gets an explicit `SessionState` model.
-/

namespace RAGChatbot

/-! ## Python primitive models: dict with string keys, str.startswith, str.strip -/

/-- Model of a Python `dict` with string keys: an association list with unique
keys, lookup returning the first (only) binding. -/
def dictLookup {α : Type} : List (String × α) → String → Option α
  | [], _ => none
  | p :: rest, k => if p.1 = k then some p.2 else dictLookup rest k

/-- Model of Python `d[k] = v`: replace the binding in place if the key exists,
otherwise add it at the end (Python dicts keep insertion order). -/
def dictInsert {α : Type} : List (String × α) → String → α → List (String × α)
  | [], k, v => [(k, v)]
  | p :: rest, k, v => if p.1 = k then (k, v) :: rest else p :: dictInsert rest k v

/-- Model of Python `s.startswith(p)` over code points. -/
def pyStartsWith (s p : String) : Bool := p.data.isPrefixOf s.data

/-- Whitespace stripped by Python `str.strip()` (the ASCII part, which is what
the generated titles contain). -/
def pyIsSpace (c : Char) : Bool :=
  c == ' ' || c == '\t' || c == '\n' || c == '\r' || c == '\x0b' || c == '\x0c'

/-- Model of Python `s.strip()`: drop leading and trailing whitespace. -/
def pyStrip (s : String) : String :=
  ⟨((s.data.dropWhile pyIsSpace).reverse.dropWhile pyIsSpace).reverse⟩

/-- Truthiness of a Python optional-list argument (`None` and `[]` are falsy). -/
def optListTruthy {α : Type} : Option (List α) → Bool
  | none => false
  | some l => !l.isEmpty

theorem dictLookup_dictInsert_self {α : Type} (d : List (String × α)) (k : String) (v : α) :
    dictLookup (dictInsert d k v) k = some v := by
  induction d with
  | nil => simp [dictInsert, dictLookup]
  | cons p rest ih =>
    by_cases h : p.1 = k
    · simp [dictInsert, dictLookup, h]
    · simp [dictInsert, dictLookup, h, ih]

/-! ## Data model (spec section 3, as realised in the source) -/

/-- Metadata of a retrieval hit, as read with `dict.get` defaults in the source
(`gui._format_chunks_for_save`, `rag_manager.build_rag_context`). -/
structure HitMeta where
  source : Option String
  page : Option String
  chunk_index : Option String
deriving DecidableEq, Repr

/-- Transient search hit (`{"text": ..., "distance": ..., "metadata": ...}`).
Distances are modelled as exact rationals. -/
structure SearchHit where
  text : String
  distance : Rat
  metadata : HitMeta
deriving DecidableEq, Repr

/-- Persisted provenance summary (`gui._format_chunks_for_save` output). -/
structure ChunkRef where
  chunk_id : String
  distance : Rat
  source : String
deriving DecidableEq, Repr

/-- A message dictionary as built by `ChatManager.add_message`: `is_rag` and
`chunks` are optional keys, absent (`none`) when the source does not set them. -/
structure Message where
  role : String
  content : String
  is_rag : Option Bool := none
  chunks : Option (List ChunkRef) := none
deriving DecidableEq, Repr

/-- A chat-list entry `{"id": ..., "title": ...}`. -/
structure Chat where
  id : String
  title : String
deriving DecidableEq, Repr

/-- ChatManager state: `self.chat_list` and `self.all_chat_histories`. -/
structure CMState where
  chat_list : List Chat
  all_chat_histories : List (String × List Message)
deriving DecidableEq, Repr

/-- The session-scoped store as seen by `ChatManager._restore_from_session_state`:
each key may be absent. -/
structure SessionState where
  chat_list : Option (List Chat)
  all_chat_histories : Option (List (String × List Message))
deriving DecidableEq, Repr

/-- Error raised by the remote store (Firestore) on mutations. -/
inductive DBErr where
  | notFound
deriving DecidableEq, Repr

/-- Error raised by the document index (ChromaDB) during search. -/
inductive IndexErr where
  | indexDown
deriving DecidableEq, Repr

/-- LangChain message objects built by `format_chat_histories`. -/
inductive LCMessage where
  | human (content : String)
  | ai (content : String)
deriving DecidableEq, Repr

/-! ## settings.py constants -/

def RAG_THRESHOLD : Rat := 12 / 10

def TOP_K_RESULTS : Nat := 3

def TITLE_MAX_LENGTH : Nat := 15

/-! ## RetrievalGate (rag_manager.py plus the spec-modelled chroma search) -/

/-- Modelled from the spec: `ChromaManager.search_with_threshold` lives in
`chroma_manager.py`, which is not under src/ (only its caller
`RAGManager.query` is). Spec 4.2: the search issues a nearest-neighbor query
for `n_results` hits against the index and `usedRetrieval` is true iff at
least one returned hit has `distance <= threshold`. The index itself is a
black box, modelled as a function from query and result count to the ordered
hit list. -/
def search_with_threshold (index : String → Nat → List SearchHit)
    (query : String) (threshold : Rat) (n_results : Nat) : List SearchHit × Bool :=
  let hits := index query n_results
  (hits, hits.any fun h => decide (h.distance ≤ threshold))

/-- `RAGManager.query`: delegates to the threshold search with the manager's
current threshold and `TOP_K_RESULTS`. -/
def RAGManager.query (index : String → Nat → List SearchHit) (threshold : Rat)
    (user_question : String) : List SearchHit × Bool :=
  search_with_threshold index user_question threshold TOP_K_RESULTS

/-- `RAGManager.build_rag_context`: numbered reference blocks joined by blank
lines; empty input yields the empty string. -/
def build_rag_context (search_results : List SearchHit) : String :=
  if search_results.isEmpty then ""
  else
    let context_parts := (List.enumFrom 1 search_results).map fun p =>
      "【参照資料" ++ toString p.1 ++ "】(" ++ p.2.metadata.source.getD "不明" ++
        " / ページ" ++ p.2.metadata.page.getD "?" ++ ")\n" ++ p.2.text
    String.intercalate "\n\n" context_parts

/-- `RAGManager.build_rag_prompt`: the f-string literal of the source, with its
indentation kept verbatim. -/
def build_rag_prompt (user_question : String) (context : String) : String :=
  "===== 参照資料 =====\n    " ++ context ++ "\n    ====================\n\n    ユーザーの質問: " ++ user_question

/-- The result dictionary of `RAGManager.get_rag_response_data`. -/
structure RagData where
  use_rag : Bool
  context : String
  prompt : String
  search_results : List SearchHit
deriving DecidableEq, Repr

/-- `RAGManager.query` under an index whose search may raise: the source has no
exception handler, so an index error propagates to the caller. `search` stands
for the chroma `search_with_threshold` call, which receives the query, the
manager's threshold and `TOP_K_RESULTS`. -/
def RAGManager.queryE (search : String → Rat → Nat → Except IndexErr (List SearchHit × Bool))
    (threshold : Rat) (user_question : String) : Except IndexErr (List SearchHit × Bool) :=
  search user_question threshold TOP_K_RESULTS

/-- `RAGManager.get_rag_response_data`: runs the query (propagating any index
exception — there is no try/except in the source) and packages the result. -/
def get_rag_response_data (search : String → Rat → Nat → Except IndexErr (List SearchHit × Bool))
    (threshold : Rat) (user_question : String) : Except IndexErr RagData :=
  match RAGManager.queryE search threshold user_question with
  | .error e => .error e
  | .ok (results, use_rag) =>
      if !use_rag then
        .ok { use_rag := false, context := "", prompt := "", search_results := [] }
      else
        let context := build_rag_context results
        let prompt := build_rag_prompt user_question context
        .ok { use_rag := true, context := context, prompt := prompt, search_results := results }

/-! ## Remote store (spec-modelled where db_manager.py is missing from src/) -/

/-- Modelled from the spec: `DBManager.save_message` lives in `db_manager.py`,
which is not under src/. Spec section 7: a mutation operation on a conversation
id that is not present in the store raises `NotFound`. The store's contents are
abstracted to the set of conversation ids it holds. -/
def db_save_message (store : List String) (chat_id : String) (_role _content : String)
    (_is_rag : Option Bool) (_chunks : Option (List ChunkRef)) : Except DBErr Unit :=
  if chat_id ∈ store then .ok () else .error .notFound

/-- Modelled from the spec: `DBManager.update_chat_title` lives in
`db_manager.py`, which is not under src/. Spec section 7: a mutation on a
non-existent conversation id raises `NotFound`. -/
def db_update_chat_title (store : List String) (chat_id : String) (_new_title : String) :
    Except DBErr Unit :=
  if chat_id ∈ store then .ok () else .error .notFound

/-! ## ConversationCache (chat_manager.py) -/

/-- `ChatManager._restore_from_session_state`: adopt pre-existing session state
when the `chat_list` key is present, otherwise fetch the chat list from the
store (histories stay empty, loaded lazily) and write both keys back. The two
trailing naturals count the remote chat-list reads and the remote history
reads issued by the call. -/
def restore_from_session_state (get_all_chats : Unit → List Chat) (ss : SessionState) :
    (List Chat × List (String × List Message)) × SessionState × Nat × Nat :=
  match ss.chat_list with
  | some cl => ((cl, ss.all_chat_histories.getD []), ss, 0, 0)
  | none =>
      let cl := get_all_chats ()
      ((cl, []), { chat_list := some cl, all_chat_histories := some [] }, 1, 0)

/-- `ChatManager.get_current_chat_id`: head of the chat list, or a fresh
`shortuuid.uuid()` value (passed in as `fresh`) when the list is empty. -/
def get_current_chat_id (chat_list : List Chat) (fresh : String) : String :=
  match chat_list with
  | c :: _ => c.id
  | [] => fresh

/-- `ChatManager.get_chat_title_by_id`: title of the first matching entry, or
the `"不明なチャット"` (unknown chat) sentinel. -/
def get_chat_title_by_id (st : CMState) (chat_id : String) : String :=
  match st.chat_list.find? (fun c => c.id = chat_id) with
  | some c => c.title
  | none => "不明なチャット"

/-- `ChatManager.get_chat_histories`: serve from the cache when present,
otherwise fetch from the store once and cache the result. Returns the
history, the updated state, and the number of remote reads issued. -/
def get_chat_histories (db_get_chat_history : String → List Message) (st : CMState)
    (chat_id : String) : List Message × CMState × Nat :=
  match dictLookup st.all_chat_histories chat_id with
  | some h => (h, st, 0)
  | none =>
      let histories := db_get_chat_history chat_id
      (histories,
       { st with all_chat_histories := dictInsert st.all_chat_histories chat_id histories },
       1)

/-- The message dictionary built at the top of `ChatManager.add_message`:
`is_rag` is set only for assistant messages, `chunks` only when additionally
`is_rag` holds and a truthy chunk list was supplied. -/
def mkMessage (role content : String) (is_rag : Bool) (chunks : Option (List ChunkRef)) :
    Message :=
  let message : Message := { role := role, content := content }
  if role = "assistant" then
    let message := { message with is_rag := some is_rag }
    if is_rag && optListTruthy chunks then { message with chunks := chunks } else message
  else message

/-- `ChatManager.add_message`: build the message, append it to the in-memory
history (creating an empty list first when the id is absent), then issue the
remote write. The remote outcome is returned alongside the updated state; the
source never rolls the in-memory append back. The store is called with the raw
arguments (`is_rag` only for assistant messages, `chunks` as supplied). -/
def add_message
    (save_message : String → String → String → Option Bool → Option (List ChunkRef) →
      Except DBErr Unit)
    (st : CMState) (chat_id role content : String) (is_rag : Bool)
    (chunks : Option (List ChunkRef)) : CMState × Except DBErr Unit :=
  let message := mkMessage role content is_rag chunks
  let hist := (dictLookup st.all_chat_histories chat_id).getD []
  let st' := { st with
    all_chat_histories := dictInsert st.all_chat_histories chat_id (hist ++ [message]) }
  (st', save_message chat_id role content
    (if role = "assistant" then some is_rag else none) chunks)

/-- `ChatManager.format_chat_histories`: map `user` to `HumanMessage`,
`assistant` to `AIMessage`, silently skip any other role. -/
def format_chat_histories (chat_histories : List Message) : List LCMessage :=
  chat_histories.filterMap fun chat =>
    if chat.role = "user" then some (.human chat.content)
    else if chat.role = "assistant" then some (.ai chat.content)
    else none

/-- `ChatManager.update_chat_title`: mutate the first matching chat-list entry
in place (no-op when absent), then issue the remote update. -/
def update_chat_title_list : List Chat → String → String → List Chat
  | [], _, _ => []
  | c :: rest, chat_id, new_title =>
      if c.id = chat_id then { c with title := new_title } :: rest
      else c :: update_chat_title_list rest chat_id new_title

/-- `ChatManager.update_chat_title` as a state transformer returning the remote
outcome. -/
def update_chat_title (remote_update : String → String → Except DBErr Unit)
    (st : CMState) (chat_id new_title : String) : CMState × Except DBErr Unit :=
  ({ st with chat_list := update_chat_title_list st.chat_list chat_id new_title },
   remote_update chat_id new_title)

/-- `ChatManager.should_generate_title`: false unless the current title starts
with the `"新規チャット"` sentinel; otherwise true iff the history (fetched
through the cache) has at least two messages. -/
def should_generate_title (db_get_chat_history : String → List Message) (st : CMState)
    (chat_id : String) : Bool × CMState :=
  let current_title := get_chat_title_by_id st chat_id
  if !pyStartsWith current_title "新規チャット" then (false, st)
  else
    let r := get_chat_histories db_get_chat_history st chat_id
    if r.1.length ≥ 2 then (true, r.2.1) else (false, r.2.1)

/-- `LangChainManager.generate_title` post-processing: the raw generator output
is stripped of surrounding whitespace and hard-truncated to
`TITLE_MAX_LENGTH` code points when longer. -/
def lc_generate_title (raw : String) : String :=
  let title := pyStrip raw
  if title.length > TITLE_MAX_LENGTH then ⟨title.data.take TITLE_MAX_LENGTH⟩ else title

/-- `ChatManager.generate_chat_title`: fetch the history through the cache,
keep the first two messages, convert them to LangChain form and hand them to
the generator; the generator's raw output (`generator`) goes through the
`LangChainManager.generate_title` post-processing. -/
def generate_chat_title (db_get_chat_history : String → List Message)
    (generator : List LCMessage → String) (st : CMState) (chat_id : String) :
    String × CMState :=
  let r := get_chat_histories db_get_chat_history st chat_id
  let recent_messages := r.1.take 2
  let formatted_messages := format_chat_histories recent_messages
  (lc_generate_title (generator formatted_messages), r.2.1)

/-! ## GUI turn orchestration (gui.py) -/

/-- The `st.session_state.current_chat` dictionary: each key may be absent. -/
structure CurrentChat where
  id : Option String
  title : Option String
deriving DecidableEq, Repr

/-- `GUI._initialize_session_state`: create the `current_chat` dictionary when
absent, fill in the `id` key from `get_current_chat_id` when absent (with
`fresh` standing for the `shortuuid.uuid()` draw), then fill in the `title`
key from `get_chat_title_by_id` applied to the (possibly new) id. The
ChatManager state is only read, never written. -/
def initialize_session_state (st : CMState) (current0 : Option CurrentChat)
    (fresh : String) : CurrentChat × CMState :=
  let cur := current0.getD { id := none, title := none }
  let current_id := match cur.id with
    | some i => i
    | none => get_current_chat_id st.chat_list fresh
  let current_title := match cur.title with
    | some t => t
    | none => get_chat_title_by_id st current_id
  ({ id := some current_id, title := some current_title }, st)

/-- `GUI._format_chunks_for_save`: compact `ChunkRef` records derived from the
search hits, with the `chunk_id` assembled from source, page and chunk index. -/
def format_chunks_for_save (search_results : List SearchHit) : List ChunkRef :=
  search_results.map fun doc =>
    { chunk_id := doc.metadata.source.getD "" ++ "_" ++ doc.metadata.page.getD "" ++ "_"
        ++ doc.metadata.chunk_index.getD "",
      distance := doc.distance,
      source := doc.metadata.source.getD "不明" }

/-- What `GUI._process_ai_response` hands to `_add_ai_message` when the turn
completes. -/
structure TurnResult where
  full_response : String
  use_rag : Bool
  chunks_to_save : Option (List ChunkRef)
deriving DecidableEq, Repr

/-- `GUI._process_ai_response`: when a retrieval gate is configured, run
`get_rag_response_data` — the source wraps it in no try/except, so an index
exception escapes the whole turn (the `.error` case). On success, generate in
RAG mode when `use_rag` holds and the context is non-empty, else in normal
mode, and save chunk provenance only when `use_rag` holds and hits exist.
`gen_rag` consumes the RAG prompt; `gen_normal` the plain history (left
abstract). -/
def process_ai_response
    (search : Option (String → Rat → Nat → Except IndexErr (List SearchHit × Bool)))
    (threshold : Rat) (gen_rag : String → String) (gen_normal : Unit → String)
    (user_input : String) : Except IndexErr TurnResult :=
  let step : Except IndexErr RagData :=
    match search with
    | none => .ok { use_rag := false, context := "", prompt := "", search_results := [] }
    | some s => get_rag_response_data s threshold user_input
  match step with
  | .error e => .error e
  | .ok rag_data =>
      let full_response :=
        if rag_data.use_rag && !(rag_data.context == "") then gen_rag rag_data.prompt
        else gen_normal ()
      let chunks_to_save :=
        if rag_data.use_rag && !rag_data.search_results.isEmpty then
          some (format_chunks_for_save rag_data.search_results)
        else none
      .ok { full_response := full_response, use_rag := rag_data.use_rag,
            chunks_to_save := chunks_to_save }

/-! ## Claims -/

/-- C1: for every query, the retrieval gate's search returns
`usedRetrieval = true` iff at least one of the returned hits has
`distance <= threshold`; in particular, for hits with distances
`[0.9, 1.3, 1.8]` and threshold `1.2`, `usedRetrieval` is true. -/
theorem retrieval_gate_threshold_iff :
    (∀ (index : String → Nat → List SearchHit) (threshold : Rat) (q : String),
      (RAGManager.query index threshold q).2 = true ↔
        ∃ h ∈ (RAGManager.query index threshold q).1, h.distance ≤ threshold)
    ∧ (RAGManager.query
        (fun _ _ => [⟨"t1", 9 / 10, ⟨none, none, none⟩⟩, ⟨"t2", 13 / 10, ⟨none, none, none⟩⟩,
          ⟨"t3", 18 / 10, ⟨none, none, none⟩⟩])
        (12 / 10) "q").2 = true := by
  constructor
  · intro index threshold q
    simp [RAGManager.query, search_with_threshold]
  · simp [RAGManager.query, search_with_threshold]
    norm_num

/-- C2: two `get_chat_histories` calls with no intervening mutation return the
identical sequence, leave the cache as the first call left it, issue no remote
read on the second call, and at most one remote read in total. -/
theorem get_chat_histories_idempotent_lazy
    (db : String → List Message) (st : CMState) (chat_id : String) :
    (get_chat_histories db (get_chat_histories db st chat_id).2.1 chat_id).1
      = (get_chat_histories db st chat_id).1
    ∧ (get_chat_histories db (get_chat_histories db st chat_id).2.1 chat_id).2.1
      = (get_chat_histories db st chat_id).2.1
    ∧ (get_chat_histories db (get_chat_histories db st chat_id).2.1 chat_id).2.2 = 0
    ∧ (get_chat_histories db st chat_id).2.2
        + (get_chat_histories db (get_chat_histories db st chat_id).2.1 chat_id).2.2 ≤ 1 := by
  cases hl : dictLookup st.all_chat_histories chat_id with
  | some h => simp [get_chat_histories, hl]
  | none => simp [get_chat_histories, hl, dictLookup_dictInsert_self]

/-- C3: `add_message` updates the in-memory history identically whatever the
remote write does, and an immediately following `get_chat_histories` returns
the previous in-memory history (empty when the id was absent) with the new
message at the end, served from the cache with no remote read. -/
theorem add_message_append_first
    (db : String → List Message)
    (save save' : String → String → String → Option Bool → Option (List ChunkRef) →
      Except DBErr Unit)
    (st : CMState) (chat_id role content : String) (is_rag : Bool)
    (chunks : Option (List ChunkRef)) :
    (add_message save st chat_id role content is_rag chunks).1
      = (add_message save' st chat_id role content is_rag chunks).1
    ∧ (get_chat_histories db (add_message save st chat_id role content is_rag chunks).1
        chat_id).1
      = (dictLookup st.all_chat_histories chat_id).getD []
          ++ [mkMessage role content is_rag chunks]
    ∧ (get_chat_histories db (add_message save st chat_id role content is_rag chunks).1
        chat_id).2.2 = 0 := by
  refine ⟨rfl, ?_, ?_⟩ <;>
    simp [add_message, get_chat_histories, dictLookup_dictInsert_self]

/-- C4: the constructor's restore step adopts pre-existing session state
verbatim with zero remote reads (whether or not histories were stored), and
only with no session chat list does it fetch the list once, fetch no
histories, and write the fetched state back to the session store. -/
theorem restore_adopts_session_state
    (get_all_chats : Unit → List Chat) (cl : List Chat)
    (hs : List (String × List Message)) (h0 : Option (List (String × List Message))) :
    restore_from_session_state get_all_chats ⟨some cl, some hs⟩
      = ((cl, hs), ⟨some cl, some hs⟩, 0, 0)
    ∧ restore_from_session_state get_all_chats ⟨some cl, none⟩
      = ((cl, []), ⟨some cl, none⟩, 0, 0)
    ∧ restore_from_session_state get_all_chats ⟨none, h0⟩
      = ((get_all_chats (), []), ⟨some (get_all_chats ()), some []⟩, 1, 0) :=
  ⟨rfl, rfl, rfl⟩

/-- C5 counterexample: with a configured retrieval gate whose index search
raises, `_process_ai_response` propagates the error — the turn aborts instead
of completing on the default non-retrieval path as the claim states. -/
theorem retrieval_exception_aborts_turn_cex :
    process_ai_response (some fun _ _ _ => .error .indexDown) (12 / 10)
      (fun _ => "rag response") (fun _ => "normal response") "質問"
      = .error .indexDown
    ∧ process_ai_response (some fun _ _ _ => .error .indexDown) (12 / 10)
        (fun _ => "rag response") (fun _ => "normal response") "質問"
      ≠ .ok { full_response := "normal response", use_rag := false,
              chunks_to_save := none } :=
  ⟨rfl, fun h => Except.noConfusion h⟩

/-- C5 (amended): if the document index raises during the retrieval step, the
exception propagates out of `_process_ai_response` unchanged (there is no
try/except on this path), so the turn aborts rather than degrading to the
non-retrieval generation path. -/
theorem retrieval_exception_aborts_turn (e : IndexErr) (threshold : Rat)
    (gen_rag : String → String) (gen_normal : Unit → String) (user_input : String) :
    process_ai_response (some fun _ _ _ => .error e) threshold gen_rag gen_normal
      user_input = .error e := rfl

/-- C6: looking up the title of a conversation id absent from both the cache
and the store yields the "unknown chat" sentinel without raising, while the
mutation operations `update_chat_title` and `add_message` on that id surface
the store's `notFound` error. -/
theorem notfound_lookup_sentinel_mutations_raise
    (store : List String) (st : CMState) (chat_id new_title role content : String)
    (is_rag : Bool) (chunks : Option (List ChunkRef))
    (hlist : ∀ c ∈ st.chat_list, c.id ≠ chat_id) (hstore : chat_id ∉ store) :
    get_chat_title_by_id st chat_id = "不明なチャット"
    ∧ (update_chat_title (db_update_chat_title store) st chat_id new_title).2
        = .error .notFound
    ∧ (add_message (db_save_message store) st chat_id role content is_rag chunks).2
        = .error .notFound := by
  refine ⟨?_, ?_, ?_⟩
  · have hfind : st.chat_list.find? (fun c => c.id = chat_id) = none := by
      rw [List.find?_eq_none]
      intro c hc
      simp [hlist c hc]
    simp [get_chat_title_by_id, hfind]
  · simp [update_chat_title, db_update_chat_title, hstore]
  · simp [add_message, db_save_message, hstore]

/-- C6 witness: a concrete id absent from an empty cache and store. -/
theorem notfound_lookup_sentinel_mutations_raise_witness :
    get_chat_title_by_id ⟨[], []⟩ "c9" = "不明なチャット"
    ∧ (update_chat_title (db_update_chat_title []) ⟨[], []⟩ "c9" "t").2
        = .error .notFound
    ∧ (add_message (db_save_message []) ⟨[], []⟩ "c9" "user" "hi" false none).2
        = .error .notFound :=
  notfound_lookup_sentinel_mutations_raise [] ⟨[], []⟩ "c9" "t" "user" "hi" false none
    (by simp) (by simp)

/-- C7: `should_generate_title` is true iff the conversation's title starts
with the `"新規チャット"` sentinel and the history has at least two messages;
in particular a sentinel-titled chat with one message yields false, with two
yields true, and a non-sentinel title yields false even with five messages. -/
theorem should_generate_title_iff :
    (∀ (db : String → List Message) (st : CMState) (chat_id : String),
      (should_generate_title db st chat_id).1 = true ↔
        (pyStartsWith (get_chat_title_by_id st chat_id) "新規チャット" = true
          ∧ 2 ≤ (get_chat_histories db st chat_id).1.length))
    ∧ (should_generate_title (fun _ => [])
        ⟨[⟨"c1", "新規チャット"⟩], [("c1", [⟨"user", "hi", none, none⟩])]⟩ "c1").1 = false
    ∧ (should_generate_title (fun _ => [])
        ⟨[⟨"c1", "新規チャット"⟩],
         [("c1", [⟨"user", "hi", none, none⟩, ⟨"assistant", "yo", some false, none⟩])]⟩
        "c1").1 = true
    ∧ (should_generate_title (fun _ => [])
        ⟨[⟨"c1", "旅行の話"⟩],
         [("c1", List.replicate 5 ⟨"user", "hi", none, none⟩)]⟩ "c1").1 = false := by
  refine ⟨?_, by decide, by decide, by decide⟩
  intro db st chat_id
  unfold should_generate_title
  by_cases hs : pyStartsWith (get_chat_title_by_id st chat_id) "新規チャット"
  · by_cases hl : 2 ≤ (get_chat_histories db st chat_id).1.length
    · simp [hs, hl]
    · simp [hs, hl]
  · simp [hs]

/-- C8: `generate_chat_title` hands the generator exactly the first two
messages of the history; the title is the generator's raw output stripped of
surrounding whitespace and hard prefix-truncated to `TITLE_MAX_LENGTH` (15)
code points, so its length is always at most 15. -/
theorem generate_chat_title_first_two_strip_truncate
    (db : String → List Message) (generator : List LCMessage → String)
    (st : CMState) (chat_id : String) :
    (generate_chat_title db generator st chat_id).1
      = lc_generate_title (generator (format_chat_histories
          ((get_chat_histories db st chat_id).1.take 2)))
    ∧ (∀ raw : String,
        (lc_generate_title raw).data = (pyStrip raw).data.take TITLE_MAX_LENGTH)
    ∧ (generate_chat_title db generator st chat_id).1.length ≤ TITLE_MAX_LENGTH := by
  have htrunc : ∀ raw : String,
      (lc_generate_title raw).data = (pyStrip raw).data.take TITLE_MAX_LENGTH := by
    intro raw
    unfold lc_generate_title
    by_cases h : (pyStrip raw).length > TITLE_MAX_LENGTH
    · simp [h]
    · have hle : (pyStrip raw).data.length ≤ TITLE_MAX_LENGTH := Nat.le_of_not_lt h
      simp [h]
      exact hle
  have hlen : ∀ raw : String, (lc_generate_title raw).length ≤ TITLE_MAX_LENGTH := by
    intro raw
    calc (lc_generate_title raw).length
        = ((pyStrip raw).data.take TITLE_MAX_LENGTH).length := by
          rw [show (lc_generate_title raw).length = (lc_generate_title raw).data.length
            from rfl, htrunc raw]
      _ ≤ TITLE_MAX_LENGTH := by
          rw [List.length_take]
          exact Nat.min_le_left _ _
  exact ⟨rfl, htrunc, hlen _⟩

/-- C9: the message built by `add_message` carries a `chunks` (provenance)
field iff its role is `assistant`, `is_rag` is set, and a non-empty chunk list
was supplied; a `user` message carries neither `is_rag` nor `chunks`, an
assistant message with `is_rag = false` carries no `chunks`, and a stored
`chunks` field is never the empty list. -/
theorem provenance_present_iff (role content : String) (is_rag : Bool)
    (chunks : Option (List ChunkRef)) :
    ((mkMessage role content is_rag chunks).chunks ≠ none ↔
      (role = "assistant" ∧ is_rag = true ∧ ∃ l, chunks = some l ∧ l ≠ []))
    ∧ ((mkMessage "user" content is_rag chunks).is_rag = none
        ∧ (mkMessage "user" content is_rag chunks).chunks = none)
    ∧ (mkMessage "assistant" content false chunks).chunks = none
    ∧ (mkMessage role content is_rag chunks).chunks ≠ some [] := by
  unfold mkMessage
  by_cases hr : role = "assistant" <;>
    cases chunks with
    | none => cases is_rag <;> simp_all [optListTruthy]
    | some l =>
        cases is_rag <;> cases l <;>
          simp_all [optListTruthy]

/-- C10: at session start with an empty conversation list, the selected
current id is the freshly generated local id; the ChatManager state is left
untouched (so the fresh id is in neither the chat list nor the histories map,
and no entry is created for it), and the stored title is the
unknown-conversation sentinel. With a non-empty list the current id is the
head's id. -/
theorem current_chat_id_fresh_or_head (st : CMState) (fresh : String)
    (hfl : ∀ c ∈ st.chat_list, c.id ≠ fresh)
    (hfh : dictLookup st.all_chat_histories fresh = none) :
    (st.chat_list = [] →
      (initialize_session_state st none fresh).1.id = some fresh
      ∧ (initialize_session_state st none fresh).2 = st
      ∧ (∀ c ∈ (initialize_session_state st none fresh).2.chat_list, c.id ≠ fresh)
      ∧ dictLookup (initialize_session_state st none fresh).2.all_chat_histories fresh
          = none
      ∧ (initialize_session_state st none fresh).1.title = some "不明なチャット")
    ∧ (∀ c rest, st.chat_list = c :: rest →
        (initialize_session_state st none fresh).1.id = some c.id) := by
  constructor
  · intro hnil
    refine ⟨?_, rfl, hfl, hfh, ?_⟩
    · simp [initialize_session_state, get_current_chat_id, hnil]
    · simp [initialize_session_state, get_current_chat_id, get_chat_title_by_id, hnil]
  · intro c rest hcons
    simp [initialize_session_state, get_current_chat_id, hcons]

/-- C10 witness: empty state, concrete fresh id. -/
theorem current_chat_id_fresh_or_head_witness :
    (initialize_session_state ⟨[], []⟩ none "V9k2xTz").1.id = some "V9k2xTz"
    ∧ (initialize_session_state ⟨[], []⟩ none "V9k2xTz").1.title
        = some "不明なチャット" :=
  ⟨((current_chat_id_fresh_or_head ⟨[], []⟩ "V9k2xTz" (by simp)
      (by simp [dictLookup])).1 rfl).1,
   ((current_chat_id_fresh_or_head ⟨[], []⟩ "V9k2xTz" (by simp)
      (by simp [dictLookup])).1 rfl).2.2.2.2⟩

end RAGChatbot
